import Mathlib

/-!
A shallow embedding of the SX127X radio driver core
(`drivers/sx127x/sx127x.c`): the four DIO interrupt event handlers, the
entropy harvester `sx127x_random`, and the initialization sequence
`sx127x_init`.  Hardware interaction is made explicit: register reads are
supplied by an oracle `Nat → Nat`, and every externally visible action
(register write, register read, timer cancellation, event-sink delivery,
diagnostic log) is recorded in a trace of `Effect`s, in program order.
-/

namespace SX127X

/-- Modelled from the spec: the register address table
(`sx127x_registers.h`) is an external collaborator, not part of the
migrated core.  Address of the LoRa interrupt-flags mask register. -/
def SX127X_REG_LR_IRQFLAGSMASK : Nat := 0x11

/-- Modelled from the spec: address of the LoRa interrupt-flag register
(external register table). -/
def SX127X_REG_LR_IRQFLAGS : Nat := 0x12

/-- Modelled from the spec: address of the LoRa hop-channel register
(external register table). -/
def SX127X_REG_LR_HOPCHANNEL : Nat := 0x1C

/-- Modelled from the spec: address of the LoRa wideband-noise (RSSI
wideband) register (external register table). -/
def SX127X_REG_LR_RSSIWIDEBAND : Nat := 0x2C

/-- Modelled from the spec: RX-timeout bit of the LoRa interrupt-flag
register (external bit-field table). -/
def SX127X_RF_LORA_IRQFLAGS_RXTIMEOUT : Nat := 0x80

/-- Modelled from the spec: RX-done bit of the LoRa interrupt-flag
register (external bit-field table). -/
def SX127X_RF_LORA_IRQFLAGS_RXDONE : Nat := 0x40

/-- Modelled from the spec: payload-CRC-error bit of the LoRa
interrupt-flag register (external bit-field table). -/
def SX127X_RF_LORA_IRQFLAGS_PAYLOADCRCERROR : Nat := 0x20

/-- Modelled from the spec: valid-header bit of the LoRa interrupt-flag
register (external bit-field table). -/
def SX127X_RF_LORA_IRQFLAGS_VALIDHEADER : Nat := 0x10

/-- Modelled from the spec: TX-done bit of the LoRa interrupt-flag
register (external bit-field table). -/
def SX127X_RF_LORA_IRQFLAGS_TXDONE : Nat := 0x08

/-- Modelled from the spec: CAD-done bit of the LoRa interrupt-flag
register (external bit-field table). -/
def SX127X_RF_LORA_IRQFLAGS_CADDONE : Nat := 0x04

/-- Modelled from the spec: FHSS-changed-channel bit of the LoRa
interrupt-flag register (external bit-field table). -/
def SX127X_RF_LORA_IRQFLAGS_FHSSCHANGEDCHANNEL : Nat := 0x02

/-- Modelled from the spec: CAD-detected bit of the LoRa interrupt-flag
register (external bit-field table). -/
def SX127X_RF_LORA_IRQFLAGS_CADDETECTED : Nat := 0x01

/-- Modelled from the spec: mask selecting the channel field of the LoRa
hop-channel register (external bit-field table). -/
def SX127X_RF_LORA_HOPCHANNEL_CHANNEL_MASK : Nat := 0x3F

/-- Modelled from the spec: the configuration bit in
`dev->settings.lora.flags` that enables frequency-hopping
(`SX127X_CHANNEL_HOPPING_FLAG`, declared in the external `sx127x.h`).
Only its position matters; the handlers test it with a bitwise and. -/
def SX127X_CHANNEL_HOPPING_FLAG : Nat := 0x01

/-- Device state (`dev->settings.state`): the C enumeration has
`SX127X_RF_IDLE`, `SX127X_RF_RX_RUNNING`, `SX127X_RF_TX_RUNNING` and
`SX127X_RF_CAD`; `cad` is only ever met by the handlers' default
branches. -/
inductive SxState where
  | idle
  | rxRunning
  | txRunning
  | cad
deriving DecidableEq

/-- Modem selection (`dev->settings.modem`).  The C value is a plain
integer, so values other than FSK and LoRa are representable; the
handlers treat them in their default branches. -/
inductive Modem where
  | fsk
  | lora
  | other : Nat → Modem
deriving DecidableEq

/-- Chip operating mode as driven through `sx127x_set_op_mode`. -/
inductive OpMode where
  | sleep
  | standby
  | receiver
  | transmitter
deriving DecidableEq

/-- Events delivered to the netdev event sink via
`netdev->event_callback`. -/
inductive NetdevEvent where
  | rxComplete
  | txComplete
  | rxTimeout
  | txTimeout
  | fhssChangeChannel
  | cadDone
deriving DecidableEq

/-- The two timeout timers owned by the device. -/
inductive TimerId where
  | tx
  | rx
deriving DecidableEq

/-- Diagnostic messages printed by the handlers' default branches. -/
inductive LogMsg where
  | dio0IdleState
  | dio0UnknownState
  | dio1UnknownState
  | dio2UnknownState
  | dio3UnknownModem
deriving DecidableEq

/-- One externally visible action of the driver, in program order. -/
inductive Effect where
  | regWrite : Nat → Nat → Effect
  | regRead : Nat → Nat → Effect
  | timerRemove : TimerId → Effect
  | event : NetdevEvent → Effect
  | log : LogMsg → Effect
deriving DecidableEq

/-- The mutable device state visible to the embedded functions: the
radio state machine state, the modem, the LoRa flag word
(`settings.lora.flags`), the `_internal` runtime fields, whether each
timeout timer is currently pending, and the chip operating mode. -/
structure Device where
  state : SxState
  modem : Modem
  loraFlags : Nat
  last_channel : Nat
  is_last_cad_success : Bool
  txTimerArmed : Bool
  rxTimerArmed : Bool
  opMode : OpMode
deriving DecidableEq

/-- Modelled from the spec: `sx127x_set_state` (defined in the external
getter/setter file) stores the new radio state in
`dev->settings.state`. -/
def sx127x_set_state (dev : Device) (s : SxState) : Device :=
  { dev with state := s }

/-- Modelled from the spec: `sx127x_set_modem` switches the modem type
(spec 4.4: "switch to LoRa modem"). -/
def sx127x_set_modem (dev : Device) (m : Modem) : Device :=
  { dev with modem := m }

/-- Modelled from the spec: `sx127x_set_op_mode` drives the chip
operating mode ("force continuous-receive mode"). -/
def sx127x_set_op_mode (dev : Device) (m : OpMode) : Device :=
  { dev with opMode := m }

/-- Modelled from the spec: `sx127x_set_sleep` puts the device to Sleep
(spec 4.4: "after 32 iterations, put the device to Sleep"). -/
def sx127x_set_sleep (dev : Device) : Device :=
  sx127x_set_op_mode dev OpMode.sleep

/-- Model of `xtimer_remove` on one of the device's timeout timers: the
pending timer of that class is cancelled. -/
def xtimer_remove (dev : Device) (t : TimerId) : Device :=
  match t with
  | TimerId.tx => { dev with txTimerArmed := false }
  | TimerId.rx => { dev with rxTimerArmed := false }

/-- `sx127x_on_dio0` (sx127x.c, lines 204 to 235).  Note the intentional
fall-through in the C switch: in `TX_RUNNING`, the LoRa case writes the
TXDONE flag and then falls through to the state change and event
delivery shared with the FSK and default cases. -/
def sx127x_on_dio0 (dev : Device) : Device × List Effect :=
  match dev.state with
  | SxState.rxRunning => (dev, [Effect.event NetdevEvent.rxComplete])
  | SxState.txRunning =>
    let dev1 := xtimer_remove dev TimerId.tx
    match dev1.modem with
    | Modem.lora =>
      (sx127x_set_state dev1 SxState.idle,
       [Effect.timerRemove TimerId.tx,
        Effect.regWrite SX127X_REG_LR_IRQFLAGS SX127X_RF_LORA_IRQFLAGS_TXDONE,
        Effect.event NetdevEvent.txComplete])
    | _ =>
      (sx127x_set_state dev1 SxState.idle,
       [Effect.timerRemove TimerId.tx, Effect.event NetdevEvent.txComplete])
  | SxState.idle => (dev, [Effect.log LogMsg.dio0IdleState])
  | _ => (dev, [Effect.log LogMsg.dio0UnknownState])

/-- `sx127x_on_dio1` (sx127x.c, lines 237 to 275).  Only the pair
(RX_RUNNING, LoRa) acts; FSK branches are `todo` no-ops, the whole
TX_RUNNING case is a no-op, and any other state only logs. -/
def sx127x_on_dio1 (dev : Device) : Device × List Effect :=
  match dev.state with
  | SxState.rxRunning =>
    match dev.modem with
    | Modem.fsk => (dev, [])
    | Modem.lora =>
      (sx127x_set_state (xtimer_remove dev TimerId.rx) SxState.idle,
       [Effect.timerRemove TimerId.rx,
        Effect.regWrite SX127X_REG_LR_IRQFLAGS SX127X_RF_LORA_IRQFLAGS_RXTIMEOUT,
        Effect.event NetdevEvent.rxTimeout])
    | _ => (dev, [])
  | SxState.txRunning => (dev, [])
  | _ => (dev, [Effect.log LogMsg.dio1UnknownState])

/-- `sx127x_on_dio2` (sx127x.c, lines 277 to 328).  In RX_RUNNING and
TX_RUNNING alike, the LoRa case acts only when the channel-hopping flag
is set: clear the FHSS flag bit, read the hop-channel register, store
the masked channel field, deliver the event.  `hw` supplies register
read results. -/
def sx127x_on_dio2 (hw : Nat → Nat) (dev : Device) : Device × List Effect :=
  match dev.state with
  | SxState.rxRunning =>
    match dev.modem with
    | Modem.fsk => (dev, [])
    | Modem.lora =>
      if dev.loraFlags &&& SX127X_CHANNEL_HOPPING_FLAG ≠ 0 then
        let ch := hw SX127X_REG_LR_HOPCHANNEL &&& SX127X_RF_LORA_HOPCHANNEL_CHANNEL_MASK
        ({ dev with last_channel := ch },
         [Effect.regWrite SX127X_REG_LR_IRQFLAGS SX127X_RF_LORA_IRQFLAGS_FHSSCHANGEDCHANNEL,
          Effect.regRead SX127X_REG_LR_HOPCHANNEL (hw SX127X_REG_LR_HOPCHANNEL),
          Effect.event NetdevEvent.fhssChangeChannel])
      else (dev, [])
    | _ => (dev, [])
  | SxState.txRunning =>
    match dev.modem with
    | Modem.fsk => (dev, [])
    | Modem.lora =>
      if dev.loraFlags &&& SX127X_CHANNEL_HOPPING_FLAG ≠ 0 then
        let ch := hw SX127X_REG_LR_HOPCHANNEL &&& SX127X_RF_LORA_HOPCHANNEL_CHANNEL_MASK
        ({ dev with last_channel := ch },
         [Effect.regWrite SX127X_REG_LR_IRQFLAGS SX127X_RF_LORA_IRQFLAGS_FHSSCHANGEDCHANNEL,
          Effect.regRead SX127X_REG_LR_HOPCHANNEL (hw SX127X_REG_LR_HOPCHANNEL),
          Effect.event NetdevEvent.fhssChangeChannel])
      else (dev, [])
    | _ => (dev, [])
  | _ => (dev, [Effect.log LogMsg.dio2UnknownState])

/-- `sx127x_on_dio3` (sx127x.c, lines 330 to 354).  Dispatch is on the
modem only: LoRa clears the CAD-detected and CAD-done flag bits, reads
the flag register back, stores whether CAD-detected is set and delivers
`CadDone`; FSK is a no-op and an unrecognized modem only logs. -/
def sx127x_on_dio3 (hw : Nat → Nat) (dev : Device) : Device × List Effect :=
  match dev.modem with
  | Modem.fsk => (dev, [])
  | Modem.lora =>
    let cadHit := (hw SX127X_REG_LR_IRQFLAGS &&& SX127X_RF_LORA_IRQFLAGS_CADDETECTED)
      == SX127X_RF_LORA_IRQFLAGS_CADDETECTED
    ({ dev with is_last_cad_success := cadHit },
     [Effect.regWrite SX127X_REG_LR_IRQFLAGS
        (SX127X_RF_LORA_IRQFLAGS_CADDETECTED ||| SX127X_RF_LORA_IRQFLAGS_CADDONE),
      Effect.regRead SX127X_REG_LR_IRQFLAGS (hw SX127X_REG_LR_IRQFLAGS),
      Effect.event NetdevEvent.cadDone])
  | _ => (dev, [Effect.log LogMsg.dio3UnknownModem])

/-- `n` successive DIO2 events; `hws k` is the register-read oracle in
force for the `k`-th event. -/
def iterateDio2 (hws : Nat → Nat → Nat) (dev : Device) : Nat → Device × List Effect
  | 0 => (dev, [])
  | n + 1 =>
    let p := iterateDio2 hws dev n
    let q := sx127x_on_dio2 (hws n) p.1
    (q.1, p.2 ++ q.2)

/-- The accumulation loop of `sx127x_random` (sx127x.c, lines 155 to
160): after `n` iterations the accumulator holds the OR of the low bit
of each read shifted to its iteration index, and the trace holds the
reads in order.  `reads i` is the wideband-noise value returned by the
`i`-th read. -/
def randomLoop (reads : Nat → Nat) : Nat → Nat × List Effect
  | 0 => (0, [])
  | n + 1 =>
    let p := randomLoop reads n
    (p.1 ||| ((reads n &&& 1) <<< n),
     p.2 ++ [Effect.regRead SX127X_REG_LR_RSSIWIDEBAND (reads n)])

/-- `sx127x_random` (sx127x.c, lines 136 to 165): switch to the LoRa
modem, mask all eight LoRa interrupt sources, enter continuous receive,
accumulate 32 noise bits, put the device to Sleep and return the
accumulator together with the final device and the effect trace. -/
def sx127x_random (reads : Nat → Nat) (dev : Device) : Nat × Device × List Effect :=
  let dev1 := sx127x_set_modem dev Modem.lora
  let maskAll := SX127X_RF_LORA_IRQFLAGS_RXTIMEOUT |||
    SX127X_RF_LORA_IRQFLAGS_RXDONE |||
    SX127X_RF_LORA_IRQFLAGS_PAYLOADCRCERROR |||
    SX127X_RF_LORA_IRQFLAGS_VALIDHEADER |||
    SX127X_RF_LORA_IRQFLAGS_TXDONE |||
    SX127X_RF_LORA_IRQFLAGS_CADDONE |||
    SX127X_RF_LORA_IRQFLAGS_FHSSCHANGEDCHANNEL |||
    SX127X_RF_LORA_IRQFLAGS_CADDETECTED
  let dev2 := sx127x_set_op_mode dev1 OpMode.receiver
  let p := randomLoop reads 32
  let dev3 := sx127x_set_sleep dev2
  (p.1, dev3,
   Effect.regWrite SX127X_REG_LR_IRQFLAGSMASK maskAll :: p.2)

/-- Environment for `sx127x_init`: whether `spi_init_cs` returns
`SPI_OK`, whether `gpio_init` of the chip-select pin succeeds, and
whether the `sx127x_test` presence check passes.  Modelled from the
spec: `sx127x_test` itself lives outside the migrated core. -/
structure InitEnv where
  spiOk : Bool
  gpioOk : Bool
  testOk : Bool
deriving DecidableEq

/-- The observable steps of the initialization sequence. -/
inductive InitStep where
  | spiBind
  | gpioCsInit
  | gpioCsSet
  | presenceTest
  | initTimers
  | resetSeq
  | rxChainCalibration
  | setOpModeSleep
  | armDioIsrs
deriving DecidableEq

/-- Modelled from the spec: the initialization error taxonomy
(`SX127X_INIT_OK`, `SX127X_ERR_SPI`, `SX127X_ERR_TEST_FAILED` are
declared in the external `sx127x.h`; the spec names them success,
`SpiBindError` and `DeviceNotFound`). -/
inductive InitResult where
  | ok
  | errSpi
  | errTestFailed
deriving DecidableEq

/-- `_init_peripherals` (sx127x.c, lines 398 to 422): bind the SPI
device, then configure and raise the chip-select GPIO; either failure
aborts with result 0 (false). -/
def _init_peripherals (env : InitEnv) : Bool × List InitStep :=
  if env.spiOk = false then (false, [InitStep.spiBind])
  else if env.gpioOk = false then (false, [InitStep.spiBind, InitStep.gpioCsInit])
  else (true, [InitStep.spiBind, InitStep.gpioCsInit, InitStep.gpioCsSet])

/-- `sx127x_init` (sx127x.c, lines 88 to 112): peripherals, presence
test, timers, reset, RX-chain calibration, Sleep, DIO interrupt arming,
in that order, aborting with the first fatal error. -/
def sx127x_init (env : InitEnv) : InitResult × List InitStep :=
  let p := _init_peripherals env
  if p.1 = false then (InitResult.errSpi, p.2)
  else if env.testOk = false then (InitResult.errTestFailed, p.2 ++ [InitStep.presenceTest])
  else (InitResult.ok,
    p.2 ++ [InitStep.presenceTest, InitStep.initTimers, InitStep.resetSeq,
            InitStep.rxChainCalibration, InitStep.setOpModeSleep, InitStep.armDioIsrs])

/-- All register writes in a trace, as (register, value) pairs, in
order. -/
def regWrites (tr : List Effect) : List (Nat × Nat) :=
  tr.filterMap fun e =>
    match e with
    | Effect.regWrite r v => some (r, v)
    | _ => none

/-- All register reads in a trace, as (register, value) pairs, in
order. -/
def regReads (tr : List Effect) : List (Nat × Nat) :=
  tr.filterMap fun e =>
    match e with
    | Effect.regRead r v => some (r, v)
    | _ => none

/-- The values written to one particular register, in order. -/
def regWritesTo (tr : List Effect) (reg : Nat) : List Nat :=
  tr.filterMap fun e =>
    match e with
    | Effect.regWrite r v => if r = reg then some v else none
    | _ => none

/-- The values read from one particular register, in order. -/
def regReadsOf (tr : List Effect) (reg : Nat) : List Nat :=
  tr.filterMap fun e =>
    match e with
    | Effect.regRead r v => if r = reg then some v else none
    | _ => none

/-- The events delivered to the event sink, in order. -/
def events (tr : List Effect) : List NetdevEvent :=
  tr.filterMap fun e =>
    match e with
    | Effect.event ev => some ev
    | _ => none

/-- The timers cancelled in a trace, in order. -/
def timerRemoves (tr : List Effect) : List TimerId :=
  tr.filterMap fun e =>
    match e with
    | Effect.timerRemove t => some t
    | _ => none

/-- The writes to the LoRa interrupt-flag register, in order. -/
def irqFlagWrites (tr : List Effect) : List Nat :=
  regWritesTo tr SX127X_REG_LR_IRQFLAGS

/-- A value with exactly one bit set. -/
def singleBit (v : Nat) : Bool :=
  v != 0 && (v &&& (v - 1) == 0)

/-- A convenient base device for concrete witnesses. -/
def dev0 : Device :=
  { state := SxState.idle
    modem := Modem.fsk
    loraFlags := 0
    last_channel := 0
    is_last_cad_success := false
    txTimerArmed := false
    rxTimerArmed := false
    opMode := OpMode.standby }

/-- Concrete device for witnesses: TxRunning with the LoRa modem. -/
def devTxLora : Device :=
  { dev0 with state := SxState.txRunning, modem := Modem.lora, txTimerArmed := true }

/-- Concrete device for witnesses: RxRunning with the LoRa modem. -/
def devRxLora : Device :=
  { dev0 with state := SxState.rxRunning, modem := Modem.lora, rxTimerArmed := true }

/-- Concrete device for witnesses: RxRunning, LoRa, hopping enabled. -/
def devHop : Device :=
  { dev0 with state := SxState.rxRunning, modem := Modem.lora, loraFlags := 1 }

/-- Concrete device for witnesses: LoRa modem, idle. -/
def devLora : Device :=
  { dev0 with modem := Modem.lora }

/-- Constant register-read oracle returning 0. -/
def hw0 : Nat → Nat := fun _ => 0

/-- Constant register-read oracle returning 1. -/
def hw1 : Nat → Nat := fun _ => 1

/-- Constant register-read oracle whose hop-channel field masks to 3. -/
def hw43 : Nat → Nat := fun _ => 0x43

/-- Constant per-event register-read oracle returning 0. -/
def hws0 : Nat → Nat → Nat := fun _ _ => 0

/-! ## Theorems -/

/-- Claim C1: for every DIO0 event handled while the state is TxRunning
and the modem is LoRa, afterward the TX-timeout timer is cancelled, the
state is Idle, exactly one TxComplete event is delivered to the event
sink, and the only write to the LoRa interrupt-flag register clears
exactly the TXDONE bit. -/
theorem dio0_txRunning_lora_spec (dev : Device)
    (hs : dev.state = SxState.txRunning) (hm : dev.modem = Modem.lora) :
    (sx127x_on_dio0 dev).1.txTimerArmed = false ∧
    timerRemoves (sx127x_on_dio0 dev).2 = [TimerId.tx] ∧
    (sx127x_on_dio0 dev).1.state = SxState.idle ∧
    events (sx127x_on_dio0 dev).2 = [NetdevEvent.txComplete] ∧
    irqFlagWrites (sx127x_on_dio0 dev).2 = [SX127X_RF_LORA_IRQFLAGS_TXDONE] := by
  obtain ⟨s, m, fl, lc, cs, tt, rt, om⟩ := dev
  dsimp only at hs hm
  subst hs; subst hm
  exact ⟨rfl, rfl, rfl, rfl, rfl⟩

/-- Witness for C1 at a concrete TxRunning LoRa device. -/
theorem dio0_txRunning_lora_spec_witness :
    devTxLora.state = SxState.txRunning ∧ devTxLora.modem = Modem.lora ∧
    ((sx127x_on_dio0 devTxLora).1.txTimerArmed = false ∧
     timerRemoves (sx127x_on_dio0 devTxLora).2 = [TimerId.tx] ∧
     (sx127x_on_dio0 devTxLora).1.state = SxState.idle ∧
     events (sx127x_on_dio0 devTxLora).2 = [NetdevEvent.txComplete] ∧
     irqFlagWrites (sx127x_on_dio0 devTxLora).2 = [SX127X_RF_LORA_IRQFLAGS_TXDONE]) :=
  ⟨rfl, rfl, dio0_txRunning_lora_spec devTxLora rfl rfl⟩

/-- Claim C2: for every DIO1 event handled while the state is RxRunning
and the modem is LoRa, the handler cancels the RX-timeout timer, writes
exactly the RXTIMEOUT bit to the LoRa interrupt-flag register, sets the
state to Idle, and delivers exactly one RxTimeout event, in that
order. -/
theorem dio1_rxRunning_lora_spec (dev : Device)
    (hs : dev.state = SxState.rxRunning) (hm : dev.modem = Modem.lora) :
    (sx127x_on_dio1 dev).2 =
      [Effect.timerRemove TimerId.rx,
       Effect.regWrite SX127X_REG_LR_IRQFLAGS SX127X_RF_LORA_IRQFLAGS_RXTIMEOUT,
       Effect.event NetdevEvent.rxTimeout] ∧
    (sx127x_on_dio1 dev).1.rxTimerArmed = false ∧
    (sx127x_on_dio1 dev).1.state = SxState.idle ∧
    events (sx127x_on_dio1 dev).2 = [NetdevEvent.rxTimeout] ∧
    irqFlagWrites (sx127x_on_dio1 dev).2 = [SX127X_RF_LORA_IRQFLAGS_RXTIMEOUT] := by
  obtain ⟨s, m, fl, lc, cs, tt, rt, om⟩ := dev
  dsimp only at hs hm
  subst hs; subst hm
  exact ⟨rfl, rfl, rfl, rfl, rfl⟩

/-- Witness for C2 at a concrete RxRunning LoRa device. -/
theorem dio1_rxRunning_lora_spec_witness :
    devRxLora.state = SxState.rxRunning ∧ devRxLora.modem = Modem.lora ∧
    ((sx127x_on_dio1 devRxLora).2 =
      [Effect.timerRemove TimerId.rx,
       Effect.regWrite SX127X_REG_LR_IRQFLAGS SX127X_RF_LORA_IRQFLAGS_RXTIMEOUT,
       Effect.event NetdevEvent.rxTimeout] ∧
     (sx127x_on_dio1 devRxLora).1.rxTimerArmed = false ∧
     (sx127x_on_dio1 devRxLora).1.state = SxState.idle ∧
     events (sx127x_on_dio1 devRxLora).2 = [NetdevEvent.rxTimeout] ∧
     irqFlagWrites (sx127x_on_dio1 devRxLora).2 = [SX127X_RF_LORA_IRQFLAGS_RXTIMEOUT]) :=
  ⟨rfl, rfl, dio1_rxRunning_lora_spec devRxLora rfl rfl⟩

/-- Claim C3: every DIO1 event handled while the state is not RxRunning
or the modem is not LoRa leaves the whole device unchanged (state,
modem, timers, last hopped channel, last CAD result), performs no
register write, and delivers no event. -/
theorem dio1_noop_spec (dev : Device)
    (h : ¬(dev.state = SxState.rxRunning ∧ dev.modem = Modem.lora)) :
    (sx127x_on_dio1 dev).1 = dev ∧
    regWrites (sx127x_on_dio1 dev).2 = [] ∧
    regReads (sx127x_on_dio1 dev).2 = [] ∧
    events (sx127x_on_dio1 dev).2 = [] ∧
    timerRemoves (sx127x_on_dio1 dev).2 = [] := by
  obtain ⟨s, m, fl, lc, cs, tt, rt, om⟩ := dev
  cases s <;> cases m <;>
    first
    | exact ⟨rfl, rfl, rfl, rfl, rfl⟩
    | exact absurd ⟨rfl, rfl⟩ h

/-- Witness for C3 at a concrete idle FSK device. -/
theorem dio1_noop_spec_witness :
    ¬(dev0.state = SxState.rxRunning ∧ dev0.modem = Modem.lora) ∧
    ((sx127x_on_dio1 dev0).1 = dev0 ∧
     regWrites (sx127x_on_dio1 dev0).2 = [] ∧
     regReads (sx127x_on_dio1 dev0).2 = [] ∧
     events (sx127x_on_dio1 dev0).2 = [] ∧
     timerRemoves (sx127x_on_dio1 dev0).2 = []) :=
  ⟨by decide, dio1_noop_spec dev0 (by decide)⟩

/-- Claim C4: in RxRunning with the LoRa modem and channel hopping
enabled, when the hop-channel register masked by the channel-field mask
equals 3, one DIO2 event sets the last hopped channel to 3, delivers
exactly one FhssChangeChannel event, and its only interrupt-flag
register write clears exactly the FHSS-changed-channel bit. -/
theorem dio2_fhss_channel3_spec (dev : Device) (hw : Nat → Nat)
    (hs : dev.state = SxState.rxRunning) (hm : dev.modem = Modem.lora)
    (hh : dev.loraFlags &&& SX127X_CHANNEL_HOPPING_FLAG ≠ 0)
    (hc : hw SX127X_REG_LR_HOPCHANNEL &&& SX127X_RF_LORA_HOPCHANNEL_CHANNEL_MASK = 3) :
    (sx127x_on_dio2 hw dev).1.last_channel = 3 ∧
    events (sx127x_on_dio2 hw dev).2 = [NetdevEvent.fhssChangeChannel] ∧
    irqFlagWrites (sx127x_on_dio2 hw dev).2 = [SX127X_RF_LORA_IRQFLAGS_FHSSCHANGEDCHANNEL] := by
  obtain ⟨s, m, fl, lc, cs, tt, rt, om⟩ := dev
  dsimp only at hs hm hh
  subst hs; subst hm
  simp only [sx127x_on_dio2, if_pos hh]
  exact ⟨hc, rfl, rfl⟩

/-- Witness for C4 at a concrete hopping-enabled device and an oracle
whose hop-channel value masks to 3. -/
theorem dio2_fhss_channel3_spec_witness :
    devHop.state = SxState.rxRunning ∧ devHop.modem = Modem.lora ∧
    devHop.loraFlags &&& SX127X_CHANNEL_HOPPING_FLAG ≠ 0 ∧
    hw43 SX127X_REG_LR_HOPCHANNEL &&& SX127X_RF_LORA_HOPCHANNEL_CHANNEL_MASK = 3 ∧
    ((sx127x_on_dio2 hw43 devHop).1.last_channel = 3 ∧
     events (sx127x_on_dio2 hw43 devHop).2 = [NetdevEvent.fhssChangeChannel] ∧
     irqFlagWrites (sx127x_on_dio2 hw43 devHop).2 = [SX127X_RF_LORA_IRQFLAGS_FHSSCHANGEDCHANNEL]) :=
  ⟨rfl, rfl, by decide, by decide,
   dio2_fhss_channel3_spec devHop hw43 rfl rfl (by decide) (by decide)⟩

/-- With channel hopping disabled, a single DIO2 event leaves the device
unchanged and its trace holds no register write and no event. -/
theorem dio2_step_no_hop (hw : Nat → Nat) (dev : Device)
    (hh : dev.loraFlags &&& SX127X_CHANNEL_HOPPING_FLAG = 0) :
    (sx127x_on_dio2 hw dev).1 = dev ∧
    regWrites (sx127x_on_dio2 hw dev).2 = [] ∧
    events (sx127x_on_dio2 hw dev).2 = [] := by
  obtain ⟨s, m, fl, lc, cs, tt, rt, om⟩ := dev
  dsimp only at hh
  cases s <;> cases m <;> simp [sx127x_on_dio2, hh, regWrites, events]

/-- Appending traces appends their register-write projections. -/
theorem regWrites_append (a b : List Effect) :
    regWrites (a ++ b) = regWrites a ++ regWrites b := by
  simp [regWrites]

/-- Appending traces appends their event projections. -/
theorem events_append (a b : List Effect) :
    events (a ++ b) = events a ++ events b := by
  simp [events]

/-- Claim C5: for every device state and modem, with channel hopping
disabled in the configuration, any number of DIO2 events never changes
the device (in particular the last hopped channel), never delivers any
event (in particular no FhssChangeChannel), and performs no register
write. -/
theorem dio2_hopping_disabled_spec (hws : Nat → Nat → Nat) (dev : Device) (n : Nat)
    (hh : dev.loraFlags &&& SX127X_CHANNEL_HOPPING_FLAG = 0) :
    (iterateDio2 hws dev n).1 = dev ∧
    regWrites (iterateDio2 hws dev n).2 = [] ∧
    events (iterateDio2 hws dev n).2 = [] := by
  induction n with
  | zero => exact ⟨rfl, rfl, rfl⟩
  | succ n ih =>
    obtain ⟨h1, h2, h3⟩ := ih
    obtain ⟨s1, s2, s3⟩ :=
      dio2_step_no_hop (hws n) (iterateDio2 hws dev n).1 (by rw [h1]; exact hh)
    refine ⟨?_, ?_, ?_⟩
    · simp only [iterateDio2]
      rw [s1, h1]
    · simp only [iterateDio2, regWrites_append]
      rw [s2, h2]
      rfl
    · simp only [iterateDio2, events_append]
      rw [s3, h3]
      rfl

/-- Witness for C5: three DIO2 events on a hopping-disabled device. -/
theorem dio2_hopping_disabled_spec_witness :
    dev0.loraFlags &&& SX127X_CHANNEL_HOPPING_FLAG = 0 ∧
    ((iterateDio2 hws0 dev0 3).1 = dev0 ∧
     regWrites (iterateDio2 hws0 dev0 3).2 = [] ∧
     events (iterateDio2 hws0 dev0 3).2 = []) :=
  ⟨by decide, dio2_hopping_disabled_spec hws0 dev0 3 (by decide)⟩

/-- Claim C6: for every device state, a DIO3 event with the LoRa modem
writes the CAD-detected and CAD-done bits to the interrupt-flag
register, then reads the register back and stores into the last CAD
result whether the CAD-detected bit was set, and delivers exactly one
CadDone event; with FSK or an unrecognized modem it performs no register
access, no state mutation, and delivers no event. -/
theorem dio3_cad_spec (dev : Device) (hw : Nat → Nat) :
    (dev.modem = Modem.lora →
      (sx127x_on_dio3 hw dev).2 =
        [Effect.regWrite SX127X_REG_LR_IRQFLAGS
           (SX127X_RF_LORA_IRQFLAGS_CADDETECTED ||| SX127X_RF_LORA_IRQFLAGS_CADDONE),
         Effect.regRead SX127X_REG_LR_IRQFLAGS (hw SX127X_REG_LR_IRQFLAGS),
         Effect.event NetdevEvent.cadDone] ∧
      (sx127x_on_dio3 hw dev).1 =
        { dev with is_last_cad_success := (hw SX127X_REG_LR_IRQFLAGS &&& SX127X_RF_LORA_IRQFLAGS_CADDETECTED) == SX127X_RF_LORA_IRQFLAGS_CADDETECTED } ∧
      events (sx127x_on_dio3 hw dev).2 = [NetdevEvent.cadDone]) ∧
    (dev.modem ≠ Modem.lora →
      (sx127x_on_dio3 hw dev).1 = dev ∧
      regWrites (sx127x_on_dio3 hw dev).2 = [] ∧
      regReads (sx127x_on_dio3 hw dev).2 = [] ∧
      events (sx127x_on_dio3 hw dev).2 = []) := by
  obtain ⟨s, m, fl, lc, cs, tt, rt, om⟩ := dev
  cases m with
  | fsk =>
    exact ⟨fun hcon => (nomatch hcon), fun _ => ⟨rfl, rfl, rfl, rfl⟩⟩
  | lora =>
    exact ⟨fun _ => ⟨rfl, rfl, rfl⟩, fun hcon => absurd rfl hcon⟩
  | other k =>
    exact ⟨fun hcon => (nomatch hcon), fun _ => ⟨rfl, rfl, rfl, rfl⟩⟩

/-- Witness for C6: the LoRa case at a concrete device and oracle, and
the FSK case at a concrete device. -/
theorem dio3_cad_spec_witness :
    devLora.modem = Modem.lora ∧
    ((sx127x_on_dio3 hw1 devLora).2 =
       [Effect.regWrite SX127X_REG_LR_IRQFLAGS
          (SX127X_RF_LORA_IRQFLAGS_CADDETECTED ||| SX127X_RF_LORA_IRQFLAGS_CADDONE),
        Effect.regRead SX127X_REG_LR_IRQFLAGS (hw1 SX127X_REG_LR_IRQFLAGS),
        Effect.event NetdevEvent.cadDone] ∧
     (sx127x_on_dio3 hw1 devLora).1 =
       { devLora with is_last_cad_success := (hw1 SX127X_REG_LR_IRQFLAGS &&& SX127X_RF_LORA_IRQFLAGS_CADDETECTED) == SX127X_RF_LORA_IRQFLAGS_CADDETECTED } ∧
     events (sx127x_on_dio3 hw1 devLora).2 = [NetdevEvent.cadDone]) ∧
    dev0.modem ≠ Modem.lora ∧
    ((sx127x_on_dio3 hw1 dev0).1 = dev0 ∧
     regWrites (sx127x_on_dio3 hw1 dev0).2 = [] ∧
     regReads (sx127x_on_dio3 hw1 dev0).2 = [] ∧
     events (sx127x_on_dio3 hw1 dev0).2 = []) :=
  ⟨rfl, (dio3_cad_spec devLora hw1).1 rfl, by decide,
   (dio3_cad_spec dev0 hw1).2 (by decide)⟩

/-- Claim C8: initialization runs its steps in the specified order and
returns the first fatal error: an SPI or chip-select binding failure
returns the SPI error before the presence test runs; a presence-test
failure returns the device-not-found error before reset, calibration,
sleep or interrupt arming run; otherwise the full ordered sequence runs
and the result is success. -/
theorem sx127x_init_spec (env : InitEnv) :
    ((env.spiOk = false ∨ env.gpioOk = false) →
      (sx127x_init env).1 = InitResult.errSpi ∧
      InitStep.presenceTest ∉ (sx127x_init env).2) ∧
    ((env.spiOk = true ∧ env.gpioOk = true ∧ env.testOk = false) →
      (sx127x_init env).1 = InitResult.errTestFailed ∧
      InitStep.resetSeq ∉ (sx127x_init env).2 ∧
      InitStep.rxChainCalibration ∉ (sx127x_init env).2 ∧
      InitStep.setOpModeSleep ∉ (sx127x_init env).2 ∧
      InitStep.armDioIsrs ∉ (sx127x_init env).2) ∧
    ((env.spiOk = true ∧ env.gpioOk = true ∧ env.testOk = true) →
      sx127x_init env =
        (InitResult.ok,
         [InitStep.spiBind, InitStep.gpioCsInit, InitStep.gpioCsSet,
          InitStep.presenceTest, InitStep.initTimers, InitStep.resetSeq,
          InitStep.rxChainCalibration, InitStep.setOpModeSleep,
          InitStep.armDioIsrs])) := by
  obtain ⟨sp, gp, te⟩ := env
  cases sp <;> cases gp <;> cases te <;> decide

/-- Witness for C8: a failing SPI bind and a fully successful
environment. -/
theorem sx127x_init_spec_witness :
    ((InitEnv.mk false true true).spiOk = false ∨
      (InitEnv.mk false true true).gpioOk = false) ∧
    ((sx127x_init (InitEnv.mk false true true)).1 = InitResult.errSpi ∧
     InitStep.presenceTest ∉ (sx127x_init (InitEnv.mk false true true)).2) ∧
    ((InitEnv.mk true true true).spiOk = true ∧
     (InitEnv.mk true true true).gpioOk = true ∧
     (InitEnv.mk true true true).testOk = true) ∧
    sx127x_init (InitEnv.mk true true true) =
      (InitResult.ok,
       [InitStep.spiBind, InitStep.gpioCsInit, InitStep.gpioCsSet,
        InitStep.presenceTest, InitStep.initTimers, InitStep.resetSeq,
        InitStep.rxChainCalibration, InitStep.setOpModeSleep,
        InitStep.armDioIsrs]) :=
  ⟨Or.inl rfl,
   (sx127x_init_spec (InitEnv.mk false true true)).1 (Or.inl rfl),
   ⟨rfl, rfl, rfl⟩,
   (sx127x_init_spec (InitEnv.mk true true true)).2.2 ⟨rfl, rfl, rfl⟩⟩

/-- The DIO0 handler writes the interrupt-flag register at most once,
and then only the TXDONE bit. -/
theorem dio0_irqFlagWrites (dev : Device) :
    irqFlagWrites (sx127x_on_dio0 dev).2 = [] ∨
    irqFlagWrites (sx127x_on_dio0 dev).2 = [SX127X_RF_LORA_IRQFLAGS_TXDONE] := by
  obtain ⟨s, m, fl, lc, cs, tt, rt, om⟩ := dev
  cases s <;> cases m <;> simp [sx127x_on_dio0, xtimer_remove, sx127x_set_state, irqFlagWrites, regWritesTo]

/-- The DIO1 handler writes the interrupt-flag register at most once,
and then only the RXTIMEOUT bit. -/
theorem dio1_irqFlagWrites (dev : Device) :
    irqFlagWrites (sx127x_on_dio1 dev).2 = [] ∨
    irqFlagWrites (sx127x_on_dio1 dev).2 = [SX127X_RF_LORA_IRQFLAGS_RXTIMEOUT] := by
  obtain ⟨s, m, fl, lc, cs, tt, rt, om⟩ := dev
  cases s <;> cases m <;> simp [sx127x_on_dio1, xtimer_remove, sx127x_set_state, irqFlagWrites, regWritesTo]

/-- The DIO2 handler writes the interrupt-flag register at most once,
and then only the FHSS-changed-channel bit. -/
theorem dio2_irqFlagWrites (hw : Nat → Nat) (dev : Device) :
    irqFlagWrites (sx127x_on_dio2 hw dev).2 = [] ∨
    irqFlagWrites (sx127x_on_dio2 hw dev).2 = [SX127X_RF_LORA_IRQFLAGS_FHSSCHANGEDCHANNEL] := by
  obtain ⟨s, m, fl, lc, cs, tt, rt, om⟩ := dev
  by_cases hh : fl &&& SX127X_CHANNEL_HOPPING_FLAG ≠ 0 <;>
    cases s <;> cases m <;> simp [sx127x_on_dio2, hh, irqFlagWrites, regWritesTo]

/-- The DIO3 handler writes the interrupt-flag register at most once,
and then exactly the CAD-detected and CAD-done pair. -/
theorem dio3_irqFlagWrites (hw : Nat → Nat) (dev : Device) :
    irqFlagWrites (sx127x_on_dio3 hw dev).2 = [] ∨
    irqFlagWrites (sx127x_on_dio3 hw dev).2 =
      [SX127X_RF_LORA_IRQFLAGS_CADDETECTED ||| SX127X_RF_LORA_IRQFLAGS_CADDONE] := by
  obtain ⟨s, m, fl, lc, cs, tt, rt, om⟩ := dev
  cases m <;> simp [sx127x_on_dio3, irqFlagWrites, regWritesTo]

/-- Claim C9 as stated is false on the code: in the LoRa branch of the
DIO3 handler, the single write to the interrupt-flag register sets two
bits (CAD-detected and CAD-done), not exactly the flag bit of a single
interrupt. -/
theorem dio3_two_bit_write_cex :
    irqFlagWrites (sx127x_on_dio3 hw0 devLora).2 =
      [SX127X_RF_LORA_IRQFLAGS_CADDETECTED ||| SX127X_RF_LORA_IRQFLAGS_CADDONE] ∧
    singleBit (SX127X_RF_LORA_IRQFLAGS_CADDETECTED ||| SX127X_RF_LORA_IRQFLAGS_CADDONE) = false := by
  decide

/-- Claim C9 (amended): in every DIO event handler, every write to the
interrupt-flag register sets only the flag bits of the interrupt(s)
being acted upon by that handler — TXDONE for DIO0, RXTIMEOUT for DIO1,
FHSS-changed-channel for DIO2, and the CAD-detected + CAD-done pair for
DIO3 — and is never a blanket clear of all eight flag bits. -/
theorem dio_irqFlagWrites_targeted (dev : Device) (hw : Nat → Nat) :
    (irqFlagWrites (sx127x_on_dio0 dev).2 = [] ∨
      irqFlagWrites (sx127x_on_dio0 dev).2 = [SX127X_RF_LORA_IRQFLAGS_TXDONE]) ∧
    (irqFlagWrites (sx127x_on_dio1 dev).2 = [] ∨
      irqFlagWrites (sx127x_on_dio1 dev).2 = [SX127X_RF_LORA_IRQFLAGS_RXTIMEOUT]) ∧
    (irqFlagWrites (sx127x_on_dio2 hw dev).2 = [] ∨
      irqFlagWrites (sx127x_on_dio2 hw dev).2 = [SX127X_RF_LORA_IRQFLAGS_FHSSCHANGEDCHANNEL]) ∧
    (irqFlagWrites (sx127x_on_dio3 hw dev).2 = [] ∨
      irqFlagWrites (sx127x_on_dio3 hw dev).2 =
        [SX127X_RF_LORA_IRQFLAGS_CADDETECTED ||| SX127X_RF_LORA_IRQFLAGS_CADDONE]) ∧
    SX127X_RF_LORA_IRQFLAGS_TXDONE ≠ 0xFF ∧
    SX127X_RF_LORA_IRQFLAGS_RXTIMEOUT ≠ 0xFF ∧
    SX127X_RF_LORA_IRQFLAGS_FHSSCHANGEDCHANNEL ≠ 0xFF ∧
    (SX127X_RF_LORA_IRQFLAGS_CADDETECTED ||| SX127X_RF_LORA_IRQFLAGS_CADDONE) ≠ 0xFF :=
  ⟨dio0_irqFlagWrites dev, dio1_irqFlagWrites dev, dio2_irqFlagWrites hw dev,
   dio3_irqFlagWrites hw dev, by decide, by decide, by decide, by decide⟩

/-- Oring a power of two above all set bits is addition. -/
theorem lor_two_pow_of_lt {x n : Nat} (hx : x < 2 ^ n) : x ||| 2 ^ n = x + 2 ^ n := by
  apply Nat.eq_of_testBit_eq
  intro i
  rcases lt_trichotomy i n with h | h | h
  · rw [Nat.testBit_lor, Nat.testBit_two_pow, Nat.add_comm, Nat.testBit_two_pow_add_gt h]
    simp [h.ne']
  · subst h
    rw [Nat.testBit_lor, Nat.testBit_two_pow, Nat.add_comm, Nat.testBit_two_pow_add_eq,
        Nat.testBit_lt_two_pow hx]
    simp
  · have hxi : x < 2 ^ i := lt_of_lt_of_le hx (Nat.pow_le_pow_right (by norm_num) h.le)
    have hsum : x + 2 ^ n < 2 ^ i := by
      have hp : 2 ^ (n + 1) = 2 ^ n * 2 := Nat.pow_succ 2 n
      have h2 : x + 2 ^ n < 2 ^ (n + 1) := by omega
      exact lt_of_lt_of_le h2 (Nat.pow_le_pow_right (by norm_num) h)
    rw [Nat.testBit_lor, Nat.testBit_two_pow, Nat.testBit_lt_two_pow hxi,
        Nat.testBit_lt_two_pow hsum]
    simp [h.ne]

/-- Oring a bit shifted above all set bits is addition. -/
theorem lor_bit_shift_of_lt {x b n : Nat} (hx : x < 2 ^ n) (hb : b ≤ 1) :
    x ||| b <<< n = x + b * 2 ^ n := by
  interval_cases b
  · simp [Nat.zero_shiftLeft]
  · simpa [Nat.shiftLeft_eq] using lor_two_pow_of_lt hx

/-- After `n` iterations the accumulator of the entropy loop is below
`2 ^ n`. -/
theorem randomLoop_fst_lt (reads : Nat → Nat) (n : Nat) :
    (randomLoop reads n).1 < 2 ^ n := by
  induction n with
  | zero => simp [randomLoop]
  | succ n ih =>
    simp only [randomLoop]
    apply Nat.or_lt_two_pow
    · exact lt_trans ih (Nat.pow_lt_pow_succ (by norm_num))
    · rw [Nat.shiftLeft_eq]
      calc (reads n &&& 1) * 2 ^ n ≤ 1 * 2 ^ n :=
            Nat.mul_le_mul_right _ Nat.and_le_right
        _ = 2 ^ n := one_mul _
        _ < 2 ^ (n + 1) := Nat.pow_lt_pow_succ (by norm_num)

/-- The accumulator of the entropy loop is the positional sum of the
low bits of the reads. -/
theorem randomLoop_fst (reads : Nat → Nat) (n : Nat) :
    (randomLoop reads n).1 = ∑ i in Finset.range n, reads i % 2 * 2 ^ i := by
  induction n with
  | zero => simp [randomLoop]
  | succ n ih =>
    simp only [randomLoop]
    rw [lor_bit_shift_of_lt (randomLoop_fst_lt reads n) Nat.and_le_right, ih,
        Finset.sum_range_succ, Nat.and_one_is_mod]

/-- Appending traces appends their per-register read projections. -/
theorem regReadsOf_append (a b : List Effect) (reg : Nat) :
    regReadsOf (a ++ b) reg = regReadsOf a reg ++ regReadsOf b reg := by
  simp [regReadsOf]

/-- Appending traces appends their per-register write projections. -/
theorem regWritesTo_append (a b : List Effect) (reg : Nat) :
    regWritesTo (a ++ b) reg = regWritesTo a reg ++ regWritesTo b reg := by
  simp [regWritesTo]

/-- A leading register write contributes nothing to the reads of a
register. -/
theorem regReadsOf_cons_regWrite (r v : Nat) (tr : List Effect) (reg : Nat) :
    regReadsOf (Effect.regWrite r v :: tr) reg = regReadsOf tr reg := by
  simp [regReadsOf]

/-- A leading register write to the same register heads its write
projection. -/
theorem regWritesTo_cons_same (r v : Nat) (tr : List Effect) :
    regWritesTo (Effect.regWrite r v :: tr) r = v :: regWritesTo tr r := by
  simp [regWritesTo]

/-- The entropy loop reads the wideband-noise register once per
iteration, in order. -/
theorem regReadsOf_randomLoop (reads : Nat → Nat) (n : Nat) :
    regReadsOf (randomLoop reads n).2 SX127X_REG_LR_RSSIWIDEBAND = (List.range n).map reads := by
  induction n with
  | zero => rfl
  | succ n ih =>
    simp only [randomLoop, regReadsOf_append, ih, List.range_succ, List.map_append]
    simp [regReadsOf]

/-- The entropy loop writes no register at all. -/
theorem regWritesTo_randomLoop (reads : Nat → Nat) (n reg : Nat) :
    regWritesTo (randomLoop reads n).2 reg = [] := by
  induction n with
  | zero => rfl
  | succ n ih =>
    simp only [randomLoop, regWritesTo_append, ih]
    simp [regWritesTo]

/-- Claim C7: for every sequence of wideband-noise values with
least-significant bits b0..b31, the entropy harvester returns the 32-bit
accumulator equal to the sum of bi times 2 to the i, performs exactly 32
reads of the wideband-noise register, and leaves the device in Sleep
mode. -/
theorem sx127x_random_spec (reads : Nat → Nat) (dev : Device) :
    (sx127x_random reads dev).1 = ∑ i in Finset.range 32, reads i % 2 * 2 ^ i ∧
    (regReadsOf (sx127x_random reads dev).2.2 SX127X_REG_LR_RSSIWIDEBAND).length = 32 ∧
    (sx127x_random reads dev).2.1.opMode = OpMode.sleep := by
  refine ⟨randomLoop_fst reads 32, ?_, rfl⟩
  have h : (sx127x_random reads dev).2.2 =
      Effect.regWrite SX127X_REG_LR_IRQFLAGSMASK
        (SX127X_RF_LORA_IRQFLAGS_RXTIMEOUT |||
         SX127X_RF_LORA_IRQFLAGS_RXDONE |||
         SX127X_RF_LORA_IRQFLAGS_PAYLOADCRCERROR |||
         SX127X_RF_LORA_IRQFLAGS_VALIDHEADER |||
         SX127X_RF_LORA_IRQFLAGS_TXDONE |||
         SX127X_RF_LORA_IRQFLAGS_CADDONE |||
         SX127X_RF_LORA_IRQFLAGS_FHSSCHANGEDCHANNEL |||
         SX127X_RF_LORA_IRQFLAGS_CADDETECTED) :: (randomLoop reads 32).2 := rfl
  rw [h, regReadsOf_cons_regWrite, regReadsOf_randomLoop]
  simp

/-- Claim C10: after the entropy harvester returns, the single write to
the LoRa interrupt-mask register in its trace is the value masking all
eight LoRa interrupt sources (so the register still holds it), and the
device modem is still LoRa: neither the mask nor the modem is restored
before sleeping. -/
theorem sx127x_random_mask_persists (reads : Nat → Nat) (dev : Device) :
    regWritesTo (sx127x_random reads dev).2.2 SX127X_REG_LR_IRQFLAGSMASK =
      [SX127X_RF_LORA_IRQFLAGS_RXTIMEOUT |||
       SX127X_RF_LORA_IRQFLAGS_RXDONE |||
       SX127X_RF_LORA_IRQFLAGS_PAYLOADCRCERROR |||
       SX127X_RF_LORA_IRQFLAGS_VALIDHEADER |||
       SX127X_RF_LORA_IRQFLAGS_TXDONE |||
       SX127X_RF_LORA_IRQFLAGS_CADDONE |||
       SX127X_RF_LORA_IRQFLAGS_FHSSCHANGEDCHANNEL |||
       SX127X_RF_LORA_IRQFLAGS_CADDETECTED] ∧
    (sx127x_random reads dev).2.1.modem = Modem.lora := by
  constructor
  · have h : (sx127x_random reads dev).2.2 =
        Effect.regWrite SX127X_REG_LR_IRQFLAGSMASK
          (SX127X_RF_LORA_IRQFLAGS_RXTIMEOUT |||
           SX127X_RF_LORA_IRQFLAGS_RXDONE |||
           SX127X_RF_LORA_IRQFLAGS_PAYLOADCRCERROR |||
           SX127X_RF_LORA_IRQFLAGS_VALIDHEADER |||
           SX127X_RF_LORA_IRQFLAGS_TXDONE |||
           SX127X_RF_LORA_IRQFLAGS_CADDONE |||
           SX127X_RF_LORA_IRQFLAGS_FHSSCHANGEDCHANNEL |||
           SX127X_RF_LORA_IRQFLAGS_CADDETECTED) :: (randomLoop reads 32).2 := rfl
    rw [h, regWritesTo_cons_same, regWritesTo_randomLoop]
  · rfl

end SX127X
